import Mathlib

/-!
Verification development for a small WPS (OGC Web Processing Service) server.

The definitions below are a shallow embedding of `pywps/app.py` and
`pywps/storage.py`: pure functions mirror the Python control flow, stateful
methods become explicit state passing, filesystem and network side effects
become explicit effect lists or environment parameters, and raised exceptions
become `Except` errors.  Line references point into the two source files.
-/

/-- XML trees, standing in for lxml element trees built via the E / WPS / OWS
element factories.  Attributes are name/value pairs in insertion order. -/
inductive Xml where
  | elem (tag : String) (attrs : List (String × String)) (children : List Xml)
  | text (s : String)

/-- Attribute list of an element (empty for text nodes). -/
def Xml.attrs : Xml → List (String × String)
  | .elem _ a _ => a
  | .text _ => []

/-- Child at a given index (none for text nodes or out of range). -/
def Xml.childAt : Xml → Nat → Option Xml
  | .elem _ _ cs, i => cs[i]?
  | .text _, _ => none

/-- Follow a path of child indices from a root node. -/
def xmlPath (x : Xml) (is : List Nat) : Option Xml :=
  is.foldl (fun acc i => acc.bind (fun y => y.childAt i)) (some x)

/-- The exception taxonomy of `pywps.exceptions` as used by `app.py` and
`storage.py`.  Each constructor carries the message (and locator where the
source passes one). -/
inductive WPSError where
  | MissingParameterValue (message locator : String)
  | InvalidParameterValue (message : String)
  | OperationNotSupported (message : String)
  | NoApplicableCode (message : String)
  | FileSizeExceeded (message locator : String)
  | NotEnoughStorage (message : String)
  | StorageNotSupported (message : String)
  | BadRequest (message : String)
deriving DecidableEq

/-- Message text of an error, used where the source interpolates the caught
exception into a new message (`'Service error: %s' % e`).  The exceptions
module is not part of the given sources; its textual rendering is modelled
as the carried message. -/
def WPSError.text : WPSError → String
  | .MissingParameterValue m _ => m
  | .InvalidParameterValue m => m
  | .OperationNotSupported m => m
  | .NoApplicableCode m => m
  | .FileSizeExceeded m _ => m
  | .NotEnoughStorage m => m
  | .StorageNotSupported m => m
  | .BadRequest m => m

/-- Observable side effects: status-document writes (`write_response_doc`),
the asynchronous task spawn in `Process.execute`, and the temp-file creation
and file copy performed by `FileStorage.store`. -/
inductive Effect where
  | write (path : String) (doc : Option Xml)
  | spawnRun
  | mkstempFile (path : String)
  | copy (src dst : String)

/-- One traceback frame: code filename, code object name, line number
(`tb_frame.f_code.co_filename`, `co_name`, `tb_lineno`). -/
structure Frame where
  coFilename : String
  coName : String
  lineno : Nat

/-- A Python exception as observed by `_run_process`: its text (`str(e)`) and
its traceback, listed from the outermost frame (the `try` site) inward. -/
structure PyExc where
  text : String
  tb : List Frame

/-- The frame-search loop of `Process._run_process` (app.py lines 704-717):
walk the traceback looking for a frame whose code name is exactly
`_handler`; if none is found fall back to the first frame. -/
def locateFrame (tb : List Frame) : Option Frame :=
  match tb.find? (fun f => f.coName == "_handler") with
  | some f => some f
  | none => tb.head?

/-- `os.path.split(p)[1]`: the final path component — the characters after
the last slash. -/
def basename (p : String) : String :=
  String.mk (p.toList.foldl (fun acc c => if c = '/' then [] else acc ++ [c]) [])

/-- `os.path.join(a, b)` for a single join step (POSIX semantics: an absolute
second argument replaces the first). -/
def pathJoin (a b : String) : String :=
  if b.toList.take 1 = ['/'] then b
  else if a = "" then b
  else if a.toList.getLast? = some '/' then a ++ b
  else a ++ "/" ++ b

/-- Configuration values consulted by `app.py` (the configuration facility
itself is outside the given sources; values are snapshot here). -/
structure Config where
  outputPath : String
  outputUrl : String
  serveraddress : String
  serverport : String
  tempPath : String

/-- `Format`: mime type / encoding / schema triple (app.py lines 151-155). -/
structure FormatT where
  mimeType : Option String
  encoding : Option String
  schema : Option String
deriving DecidableEq

/-- A raw parsed input dictionary as produced by `get_input_from_xml` /
`get_data_from_kvp`: the keys `parse_complex_inputs` and
`parse_literal_inputs` read.  The parsers always populate `identifier` and
`data`, so those are plain strings; the remaining keys are optional. -/
structure RawInput where
  identifier : String
  data : String
  uom : Option String
  datatype : Option String
  mimeType : Option String
  encoding : Option String
  schema : Option String
  method : Option String
  href : Option String
deriving DecidableEq

/-- The populated `LiteralInput` produced by `parse_literal_inputs`.
`dataType = none` keeps the class's default type. -/
structure LiteralInputV where
  identifier : String
  uom : Option String
  dataType : Option String
  data : String
deriving DecidableEq

/-- The populated `ComplexInput` produced by `parse_complex_inputs`.
Modelled from the spec: the `ComplexInput` class itself lives in the
`pywps.inputs` module, which is not among the given sources; only the fields
`parse_complex_inputs` (app.py lines 148-216) reads and writes are kept. -/
structure ComplexInputV where
  identifier : String
  dataFormat : FormatT
  method : String
  data : Option String
  file : Option String
  url : Option String
  asReference : Bool
deriving DecidableEq

/-- Environment for input parsing.  `maxMegabytes` is the configured maximum
input size (modelled from the spec: `ComplexInput.calculate_max_input_size`
resolves a configured maximum, code not among the given sources).
`tmpFileName` is the name `tempfile.mkstemp` generates, and `fetch` abstracts
`urlopen`: it yields the decoded body together with the `Content-Length`
header value (0 when the header is absent), or a transport error text. -/
structure ParseEnv where
  maxMegabytes : Nat
  tmpFileName : String
  fetch : String → Except String (String × Nat)

/-- `parse_complex_inputs` (app.py lines 148-216).  A present, non-empty
`href` selects the reference path: fetch, size-check against
`max_megabytes * 1024 * 1024` (the fallback size measurement counts the
characters `StringIO.write` reports), and record file/url/reference flags.
Otherwise the inline data is size-checked by its UTF-8 byte length and
stored inline. -/
def parse_complex_inputs (env : ParseEnv) (inputs : RawInput) :
    Except WPSError ComplexInputV :=
  let base : ComplexInputV :=
    { identifier := inputs.identifier
      dataFormat :=
        { mimeType := inputs.mimeType, encoding := inputs.encoding,
          schema := inputs.schema }
      method := inputs.method.getD "GET"
      data := none, file := none, url := none, asReference := false }
  let byteSize := env.maxMegabytes * 1024 * 1024
  let inline : Except WPSError ComplexInputV :=
    if inputs.data.utf8ByteSize > byteSize then
      .error (.FileSizeExceeded
        ("File size for input exceeded. Maximum allowed: " ++
          toString env.maxMegabytes ++ " megabytes") inputs.identifier)
    else
      .ok { base with data := some inputs.data }
  match inputs.href with
  | some href =>
    if href = "" then inline
    else
      match env.fetch href with
      | .error e => .error (.NoApplicableCode ("File reference error: " ++ e))
      | .ok (body, contentLen) =>
        let dataSize := if contentLen = 0 then body.length else contentLen
        if dataSize > byteSize then
          .error (.FileSizeExceeded
            ("File size for input exceeded. Maximum allowed: " ++
              toString env.maxMegabytes ++ " megabytes") inputs.identifier)
        else
          .ok { base with file := some env.tmpFileName, url := some href,
                          asReference := true }
  | none => inline

/-- `parse_literal_inputs` (app.py lines 219-234): copy identifier, unit of
measure, optional datatype override (only when truthy) and the raw value. -/
def parse_literal_inputs (inputs : RawInput) : LiteralInputV :=
  { identifier := inputs.identifier
    uom := inputs.uom
    dataType :=
      match inputs.datatype with
      | some dt => if dt = "" then none else some dt
      | none => none
    data := inputs.data }

/-- A declared process input.  The Service distinguishes the two supported
kinds by `isinstance` checks (app.py lines 979-982); the declaration classes
live in `pywps.inputs`, outside the given sources, so only the identifier
and the kind are kept. -/
inductive DeclaredInput where
  | complex (identifier : String)
  | literal (identifier : String)
deriving DecidableEq

/-- Identifier of a declared input. -/
def DeclaredInput.identifier : DeclaredInput → String
  | .complex i => i
  | .literal i => i

/-- A process output object as declared in `Process.outputs` and copied into
`WPSResponse.outputs`.  `describeXml` and `executeXml` stand in for the
rendering methods of the output classes (`pywps.outputs`, not among the
given sources); `data` is the produced payload the raw path returns. -/
structure ProcOutput where
  identifier : String
  asReference : Bool
  data : String
  describeXml : Xml
  executeXml : Xml

/-- The `Process` object state (app.py lines 575-599): declared signature,
capability flags serialized as the literal strings true / false, and the
per-execution transient fields `uuid`, `status_location`, `status_url`. -/
structure Process where
  identifier : String
  title : String
  abstract : String
  metadata : List String
  profile : List String
  wsdl : String
  version : String
  inputs : List DeclaredInput
  outputs : List ProcOutput
  uuid : Option String
  status_location : String
  status_url : String
  store_supported : String
  status_supported : String

/-- A requested output entry from the parsed request
(`wps_request.outputs[identifier]`): just the `asReference` attribute the
Service consults (app.py line 990). -/
structure RawOutputReq where
  asReference : Option String

/-- The Execute-relevant slice of a parsed `WPSRequest` (app.py lines
251-372): the tri-state string flags, the raw flag, the submitted inputs
(`none` models the Python `None`), the requested outputs, and — after the
Service has replaced the raw inputs with typed objects — the execute-XML
renderings of those typed inputs, consumed by the lineage section. -/
structure WPSRequest where
  store_execute : String
  status : String
  lineage : String
  raw : Bool
  inputs : Option (List (String × RawInput))
  outputs : List (String × RawOutputReq)
  inputsXml : List Xml

/-- Status level `WPSResponse.NO_STATUS` (app.py line 395). -/
def NO_STATUS : Nat := 0

/-- Status level `WPSResponse.STORE_STATUS` (app.py line 396). -/
def STORE_STATUS : Nat := 1

/-- Status level `WPSResponse.STORE_AND_UPDATE_STATUS` (app.py line 397). -/
def STORE_AND_UPDATE_STATUS : Nat := 2

/-- The mutable `WPSResponse` state (app.py lines 399-406).  The Python
object holds live references to its process and request; here the functions
that read process state take the current `Process` as an argument, and the
request fields the document builder reads (`lineage`, the typed inputs'
renderings) are copied in at construction, after which the source never
mutates them. -/
structure WPSResponse where
  message : String
  status : Nat
  statusPercentage : Int
  doc : Option Xml
  outputs : List (String × ProcOutput)
  reqLineage : String
  lineageInputsXml : List Xml

/-- `WPSResponse.__init__` (app.py lines 399-406): outputs keyed by
identifier, empty message, `NO_STATUS`, percentage 0, no document yet. -/
def WPSResponse.init (proc : Process) (req : WPSRequest) : WPSResponse :=
  { message := ""
    status := NO_STATUS
    statusPercentage := 0
    doc := none
    outputs := proc.outputs.map (fun o => (o.identifier, o))
    reqLineage := req.lineage
    lineageInputsXml := req.inputsXml }

/-- `WPSResponse._process_accepted` (app.py lines 430-434). -/
def process_accepted (message now : String) : Xml :=
  .elem "wps:Status" [("creationTime", now)]
    [.elem "wps:ProcessAccepted" [] [.text message]]

/-- `WPSResponse._process_started` (app.py lines 436-443). -/
def process_started (message : String) (pct : Int) (now : String) : Xml :=
  .elem "wps:Status" [("creationTime", now)]
    [.elem "wps:ProcessStarted" [("percentCompleted", toString pct)]
      [.text message]]

/-- `WPSResponse._process_succeeded` (app.py lines 454-458). -/
def process_succeeded (message now : String) : Xml :=
  .elem "wps:Status" [("creationTime", now)]
    [.elem "wps:ProcessSucceeded" [] [.text message]]

/-- `WPSResponse._process_failed` (app.py lines 460-472): a ProcessFailed
status wrapping an ExceptionReport whose Exception carries the message, the
code NoApplicableCode and — exactly as the source spells it — an attribute
named locater with the literal value None. -/
def process_failed (message now : String) : Xml :=
  .elem "wps:Status" [("creationTime", now)]
    [.elem "wps:ProcessFailed" []
      [.elem "wps:ExceptionReport" []
        [.elem "ows:Exception"
          [("exceptionCode", "NoApplicableCode"), ("locater", "None")]
          [.elem "ows:Exception" [] [.text message]]]]]

/-- `WPSResponse._construct_doc` (app.py lines 474-545).  Returns the built
document, the (possibly message-mutated) response state, and the write
effects issued from inside the builder.  The root attributes follow lines
476-488; the optional abstract / metadata / profile / WSDL children are
appended to the ROOT element (lines 495-503) while the `wps:Process`
sub-element only gets identifier and title (lines 491-494, 504); the status
section follows lines 508-545. -/
def construct_doc (proc : Process) (cfg : Config) (now : String)
    (self : WPSResponse) : Xml × WPSResponse × List Effect :=
  let rootAttrs : List (String × String) :=
    [("xsi:schemaLocation",
      "http://www.opengis.net/wps/1.0.0 http://schemas.opengis.net/wps/1.0.0/wpsDescribeProcess_response.xsd"),
     ("service", "WPS"), ("version", "1.0.0"), ("xml:lang", "en-CA"),
     ("serviceInstance",
      cfg.serveraddress ++ ":" ++ cfg.serverport ++
        "/wps?service=wps&request=getcapabilities")]
  let rootAttrs :=
    if self.status ≥ STORE_STATUS then
      if proc.status_location ≠ "" then
        rootAttrs ++ [("statusLocation", proc.status_url)]
      else rootAttrs
    else rootAttrs
  let processDoc : Xml :=
    .elem "wps:Process" [("wps:processVersion", proc.version)]
      [.elem "ows:Identifier" [] [.text proc.identifier],
       .elem "ows:Title" [] [.text proc.title]]
  let baseChildren : List Xml :=
    (if proc.abstract ≠ "" then [.elem "ows:Abstract" [] [.text proc.abstract]]
     else []) ++
    proc.metadata.map (fun m => .elem "ows:Metadata" [] [.text m]) ++
    (if proc.profile ≠ [] then
      [.elem "ows:Profile" [] (proc.profile.map .text)] else []) ++
    (if proc.wsdl ≠ "" then [.elem "ows:WSDL" [] [.text proc.wsdl]] else []) ++
    [processDoc]
  let rest : Xml × WPSResponse × List Effect :=
    if self.statusPercentage = -1 then
      (.elem "wps:ExecuteResponse" rootAttrs
        (baseChildren ++ [process_failed self.message now]), self, [])
    else
      let succChildren := baseChildren ++ [process_succeeded self.message now]
      let succChildren :=
        if self.reqLineage = "true" then
          succChildren ++
            [.elem "wps:DataInputs" [] self.lineageInputsXml,
             .elem "wps:OutputDefinitions" []
               (self.outputs.map (fun o => o.2.describeXml))]
        else succChildren
      let succChildren := succChildren ++
        [.elem "wps:ProcessOutputs" []
          (self.outputs.map (fun o => o.2.executeXml))]
      (.elem "wps:ExecuteResponse" rootAttrs succChildren, self, [])
  if self.status ≥ STORE_AND_UPDATE_STATUS then
    if self.statusPercentage = 0 then
      let newSelf :=
        { self with message := "PyWPS Process " ++ proc.identifier ++ " accepted" }
      let doc : Xml := .elem "wps:ExecuteResponse" rootAttrs
        (baseChildren ++ [process_accepted newSelf.message now])
      (doc, newSelf, [.write proc.status_location (some doc)])
    else if 0 < self.statusPercentage ∧ self.statusPercentage < 100 then
      (.elem "wps:ExecuteResponse" rootAttrs
        (baseChildren ++ [process_started self.message self.statusPercentage now]),
       self, [])
    else rest
  else rest

/-- `WPSResponse.update_status` (app.py lines 408-418).  The message is
always recorded; the rebuild branch runs only when the supplied percentage
is truthy in the Python sense (present and nonzero); the document on file is
then written out whenever the status level is at least `STORE_STATUS`. -/
def update_status (proc : Process) (cfg : Config) (now : String)
    (self : WPSResponse) (message : String) (pct : Option Int) :
    WPSResponse × List Effect :=
  let self1 := { self with message := message }
  let step : WPSResponse × List Effect :=
    match pct with
    | some p =>
      if p ≠ 0 then
        let self2 := { self1 with statusPercentage := p }
        let r := construct_doc proc cfg now self2
        ({ r.2.1 with doc := some r.1 }, r.2.2)
      else (self1, [])
    | none => (self1, [])
  if step.1.status ≥ STORE_STATUS then
    (step.1, step.2 ++ [.write proc.status_location step.1.doc])
  else step

/-- The handler contract (app.py lines 560-563): a callable taking the
request and response; a raised exception is an `Except.error`. -/
def Handler : Type :=
  WPSRequest → WPSResponse → Except PyExc WPSResponse

/-- `Process._run_process` (app.py lines 694-724): run the handler; on normal
return force a final 100 percent update unless already there; on an
exception locate the reporting frame, build the diagnostic message
`Process error: file.function Line n text` and record a terminal -1 update.
No exception escapes: the function is total. -/
def run_process (proc : Process) (cfg : Config) (now : String)
    (handler : Handler) (req : WPSRequest) (resp : WPSResponse) :
    WPSResponse × List Effect :=
  match handler req resp with
  | .ok r =>
    if r.statusPercentage ≠ 100 then
      update_status proc cfg now r "PyWPS Process finished" (some 100)
    else (r, [])
  | .error e =>
    let f := (locateFrame e.tb).getD { coFilename := "", coName := "", lineno := 0 }
    let msg := "Process error: " ++ basename f.coFilename ++ "." ++ f.coName ++
      " Line " ++ toString f.lineno ++ " " ++ e.text
    update_status proc cfg now resp msg (some (-1))

/-- Environment of one `Process.execute` call: configuration snapshot, the
fresh UUID4 string `uuid4()` produces, the `time.strftime` timestamp, the
parse environment, and the execute-XML renderer for typed inputs (modelled
from the spec: the rendering methods live in the `pywps.inputs` module). -/
structure ExecEnv where
  cfg : Config
  uuid : String
  now : String
  parse : ParseEnv
  inputExecuteXml : ComplexInputV ⊕ LiteralInputV → Xml

/-- `Process.execute` (app.py lines 655-692).  Returns the mutated process
state together with the outcome: the UUID is assigned first; the storage and
status capability checks follow; `status_location` / `status_url` are
reassigned only on the storing path; the async path spawns the run and
returns the level-2 response immediately, the sync paths run
`_run_process` inline. -/
def Process.execute (self : Process) (env : ExecEnv) (handler : Handler)
    (req : WPSRequest) :
    Process × Except WPSError (WPSResponse × List Effect) :=
  let self1 := { self with uuid := some env.uuid }
  let resp0 := WPSResponse.init self1 req
  if req.store_execute = "true" then
    if self1.store_supported ≠ "true" then
      (self1, .error (.StorageNotSupported
        "Process does not support the storing of the execute response"))
    else
      let fileUrl := env.cfg.serveraddress ++ ":" ++ env.cfg.serverport ++
        env.cfg.outputUrl
      let self2 := { self1 with
        status_location := pathJoin env.cfg.outputPath env.uuid ++ ".xml",
        status_url := pathJoin fileUrl env.uuid ++ ".xml" }
      if req.status = "true" then
        if self2.status_supported ≠ "true" then
          (self2, .error (.OperationNotSupported
            "Process does not support the updating of status"))
        else
          (self2, .ok ({ resp0 with status := STORE_AND_UPDATE_STATUS },
            [.spawnRun]))
      else
        (self2, .ok (run_process self2 env.cfg env.now handler req
          { resp0 with status := STORE_STATUS }))
  else
    (self1, .ok (run_process self1 env.cfg env.now handler req resp0))

/-- A typed input value after Service-side parsing: the populated complex or
literal input object. -/
def ParsedInput : Type := ComplexInputV ⊕ LiteralInputV

/-- The declared-input loop of `Service.execute` (app.py lines 972-982): for
each declared input in order, first require its identifier among the
submitted inputs (`MissingParameterValue` with empty message and the
identifier as locator otherwise), then parse the submitted entry — so a
parse failure of an earlier input is raised before a later input's presence
is ever checked. -/
def parseDataInputs (env : ParseEnv) (declared : List DeclaredInput)
    (submitted : List (String × RawInput)) :
    Except WPSError (List (String × ParsedInput)) :=
  match declared with
  | [] => .ok []
  | d :: ds =>
    match submitted.lookup d.identifier with
    | none => .error (.MissingParameterValue "" d.identifier)
    | some raw =>
      match d with
      | .complex _ =>
        match parse_complex_inputs env raw with
        | .error e => .error e
        | .ok v =>
          (parseDataInputs env ds submitted).map
            (fun rest => (d.identifier, Sum.inl v) :: rest)
      | .literal _ =>
        (parseDataInputs env ds submitted).map
          (fun rest => (d.identifier, Sum.inr (parse_literal_inputs raw)) :: rest)

/-- Set the `as_reference` flag on every declared output with the given
identifier (app.py lines 1000-1002). -/
def setOutRef (process : Process) (oid : String) (b : Bool) : Process :=
  { process with outputs := (process.outputs.map
      (fun o => if o.identifier = oid then { o with asReference := b } else o)) }

/-- The requested-output loop of `Service.execute` (app.py lines 987-1002):
a requested output whose `asReference` attribute is (case-insensitively)
true requires storage support, failing with `StorageNotSupported` when
`store_supported` is the literal string false. -/
def applyAsReference (process : Process)
    (outs : List (String × RawOutputReq)) : Except WPSError Process :=
  match outs with
  | [] => .ok process
  | (oid, od) :: restOuts =>
    let isRefS := (od.asReference.getD "false").toLower
    if isRefS = "true" then
      if process.store_supported = "false" then
        .error (.StorageNotSupported
          "The storage of data is not supported for this process.")
      else applyAsReference (setOutRef process oid true) restOuts
    else applyAsReference (setOutRef process oid false) restOuts

/-- The raw-output search (app.py lines 1012-1015): first requested output
matching a produced output wins.  The produced outputs are read from the
response (the Python response shares its output objects with the process, so
the handler's produced data is visible there). -/
def findRaw (reqOuts : List (String × RawOutputReq))
    (produced : List (String × ProcOutput)) : Option String :=
  reqOuts.findSome? (fun ro =>
    produced.findSome? (fun po =>
      if po.2.identifier = ro.1 then some po.2.data else none))

/-- Outcome of `Service.execute`: a document response (with its effects) or
a raw body. -/
inductive ServiceResult where
  | response (resp : WPSResponse) (effs : List Effect)
  | rawData (body : String)

/-- The service registry (app.py lines 735-736). -/
structure Service where
  processes : List (String × Process)

/-- `Service.execute` (app.py lines 959-1020): registry lookup, the
datainputs presence check, the declared-input loop, the requested-output
reference flags, the wrapped call into `Process.execute`, and the raw-output
extraction. -/
def Service.execute (self : Service) (identifier : String) (env : ExecEnv)
    (handler : Handler) (req : WPSRequest) : Except WPSError ServiceResult :=
  match self.processes.lookup identifier with
  | none => .error (.BadRequest ("Unknown process '" ++ identifier ++ "'"))
  | some process =>
    let afterParse : Except WPSError (List (String × ParsedInput)) :=
      match req.inputs with
      | none =>
        if process.inputs = [] then .ok []
        else .error (.MissingParameterValue "" "datainputs")
      | some submitted => parseDataInputs env.parse process.inputs submitted
    match afterParse with
    | .error e => .error e
    | .ok parsed =>
      let req1 := { req with
        inputsXml := parsed.map (fun p => env.inputExecuteXml p.2) }
      let procStep : Except WPSError Process :=
        if req.raw then .ok process else applyAsReference process req.outputs
      match procStep with
      | .error e => .error e
      | .ok process1 =>
        match Process.execute process1 env handler req1 with
        | (_, .error e) =>
          .error (.NoApplicableCode ("Service error: " ++ e.text))
        | (_, .ok (resp, effs)) =>
          if req.raw then
            match findRaw req.outputs resp.outputs with
            | some body => .ok (.rawData body)
            | none => .error (.InvalidParameterValue "")
          else .ok (.response resp effs)

/-- `STORE_TYPE.PATH` (storage.py lines 7-8). -/
def STORE_TYPE_PATH : Nat := 0

/-- The output object `FileStorage.store` receives: its backing file and the
extension derived from its declared format (the format class is outside the
given sources, so the derived extension is a field). -/
structure StoreOutput where
  file : String
  formatExtension : String

/-- Filesystem snapshot for one `FileStorage.store` call: the stat results
of the source file, the free space `get_free_space` reports for the target
directory, the name `tempfile.mkstemp` generates, and the stdlib `urljoin`
treated as an external function. -/
structure FSEnv where
  blkSize : Nat
  fileSize : Nat
  freeSpace : Nat
  mkstempName : String
  urljoin : String → String → String

/-- `os.path.splitext`: split off the extension of the final path component;
the extension starts at the last dot, but only when a non-dot character
precedes that dot within the component. -/
def splitext (p : String) : String × String :=
  let cs := (basename p).toList
  let ext : List Char :=
    match ((List.range cs.length).filter
        (fun i => cs.getD i ' ' = '.')).getLast? with
    | none => []
    | some i =>
      if (List.range i).any (fun j => cs.getD j ' ' ≠ '.') then cs.drop i
      else []
  (p.dropRight ext.length, String.mk ext)

/-- The `FileStorage` configuration (storage.py lines 71-80). -/
structure FileStorage where
  target : String
  output_url : String

/-- `FileStorage.store` (storage.py lines 82-115): round the file size up to
whole filesystem blocks, refuse with `NotEnoughStorage` — issuing no
filesystem effect — when the rounded size exceeds the reported free space;
otherwise create the unique target name, copy, and return the
`(STORE_TYPE.PATH, name, url)` triple with the URL joined from the
configured output URL and the generated name's basename. -/
def FileStorage.store (self : FileStorage) (env : FSEnv)
    (output : StoreOutput) :
    Except WPSError (Nat × String × String) × List Effect :=
  let fileName := output.file
  let actualFileSize :=
    ((env.fileSize + env.blkSize - 1) / env.blkSize) * env.blkSize
  if env.freeSpace < actualFileSize then
    (.error (.NotEnoughStorage
      ("Not enough space in " ++ self.target ++ " to store " ++ fileName)), [])
  else
    let suffix := (splitext fileName).2
    let _suffix := if suffix = "" then output.formatExtension else suffix
    let outputName := env.mkstempName
    let justFileName := basename outputName
    let url := env.urljoin self.output_url justFileName
    (.ok (STORE_TYPE_PATH, outputName, url),
     [.mkstempFile outputName,
      .copy output.file (pathJoin self.target outputName)])

/-- The `wps:ResponseForm/wps:ResponseDocument` element of a POST Execute
document, reduced to the three attributes the parser reads (app.py lines
362-366). -/
structure ResponseDocumentEl where
  lineage : Option String
  storeExecuteResponse : Option String
  status : Option String
deriving DecidableEq

/-- The slice of a POST Execute document that determines the raw and
tri-state flags: whether a `wps:ResponseForm/wps:RawDataOutput` element is
present, and the `wps:ResponseForm/wps:ResponseDocument` element when
present. -/
structure ExecutePostDoc where
  hasRawDataOutput : Bool
  responseDocument : Option ResponseDocumentEl
deriving DecidableEq

/-- The parsed flags of a POST Execute request. -/
structure ExecuteFlags where
  raw : Bool
  store_execute : String
  status : String
  lineage : String
deriving DecidableEq

/-- The flag-setting logic of `WPSRequest.__init__` for a POST Execute
document (app.py lines 350-366): all three string flags default to false;
a present RawDataOutput sets `raw` and forces `store_execute` to false; a
present ResponseDocument element then overrides all three string flags from
its attributes (defaulting each to false). -/
def parse_execute_post_flags (doc : ExecutePostDoc) : ExecuteFlags :=
  let lineage := "false"
  let store_execute := "false"
  let status := "false"
  let raw := false
  let rawStore : Bool × String :=
    if doc.hasRawDataOutput then (true, "false") else (raw, store_execute)
  match doc.responseDocument with
  | some rd =>
    { raw := rawStore.1
      store_execute := rd.storeExecuteResponse.getD "false"
      status := rd.status.getD "false"
      lineage := rd.lineage.getD "false" }
  | none =>
    { raw := rawStore.1, store_execute := rawStore.2,
      status := status, lineage := lineage }

/-- A declared input together with a submitted entry that parses without an
error — the side condition under which the declared-input loop proceeds past
that input. -/
def parseOneOk (env : ParseEnv) (d : DeclaredInput) (r : RawInput) : Prop :=
  match d with
  | .complex _ => ∃ v, parse_complex_inputs env r = .ok v
  | .literal _ => True

/-- Sample configuration used by concrete instances below. -/
def sampleCfg : Config :=
  { outputPath := "/out", outputUrl := "/wpsoutputs",
    serveraddress := "http://localhost", serverport := "5000",
    tempPath := "/tmp" }

/-- A minimal process: no abstract / metadata / profile / WSDL, no declared
inputs or outputs, neither capability. -/
def sampleProc : Process :=
  { identifier := "p", title := "T", abstract := "", metadata := [],
    profile := [], wsdl := "", version := "None", inputs := [], outputs := [],
    uuid := none, status_location := "", status_url := "",
    store_supported := "false", status_supported := "false" }

/-- The same process with both storage capabilities declared. -/
def storingProc : Process :=
  { sampleProc with store_supported := "true", status_supported := "true" }

/-- A process declaring storage but not status updating. -/
def storeOnlyProc : Process :=
  { sampleProc with store_supported := "true" }

/-- A plain Execute request: nothing stored, no raw output, no inputs. -/
def sampleReq : WPSRequest :=
  { store_execute := "false", status := "false", lineage := "false",
    raw := false, inputs := none, outputs := [], inputsXml := [] }

/-- An Execute request with storeExecuteResponse=true. -/
def storeReq : WPSRequest := { sampleReq with store_execute := "true" }

/-- An Execute request with storeExecuteResponse=true and status=true. -/
def storeStatusReq : WPSRequest := { storeReq with status := "true" }

/-- Parse environment with a configured maximum of 0 megabytes and no
network. -/
def sampleParseEnv : ParseEnv :=
  { maxMegabytes := 0, tmpFileName := "/tmp/t",
    fetch := fun _ => .error "no network" }

/-- Sample execution environment. -/
def sampleEnv : ExecEnv :=
  { cfg := sampleCfg, uuid := "u", now := "t", parse := sampleParseEnv,
    inputExecuteXml := fun _ => Xml.text "" }

/-- A handler that returns its response unchanged. -/
def okHandler : Handler := fun _ r => .ok r

/-- A sample exception with a one-frame traceback located inside the user
handler function. -/
def failExc : PyExc :=
  { text := "boom",
    tb := [{ coFilename := "/srv/app/proc.py", coName := "_handler",
             lineno := 5 }] }

/-- A handler that raises `failExc`. -/
def failHandler : Handler := fun _ _ => .error failExc

/-- The process state right after `Process.execute` assigns the fresh UUID
(app.py line 657). -/
def uuidAssigned (p : Process) (u : String) : Process :=
  { p with uuid := some u }

/-- The process state after `Process.execute` computes the status location
and URL on the storing path (app.py lines 666-674). -/
def storedProcess (p : Process) (cfg : Config) (u : String) : Process :=
  { p with
      status_location := pathJoin cfg.outputPath u ++ ".xml"
      status_url :=
        pathJoin (cfg.serveraddress ++ ":" ++ cfg.serverport ++ cfg.outputUrl)
          u ++ ".xml" }

/-- A fresh response for a process and request, at a given status level. -/
def initAtLevel (p : Process) (req : WPSRequest) (lvl : Nat) : WPSResponse :=
  { WPSResponse.init p req with status := lvl }

/-- A failed response: terminal percentage -1, no status storage. -/
def respFail : WPSResponse :=
  { message := "boom", status := NO_STATUS, statusPercentage := -1,
    doc := none, outputs := [], reqLineage := "false", lineageInputsXml := [] }

/-- A mid-run response at 50 percent, level `NO_STATUS`, no document. -/
def respHalf : WPSResponse :=
  { message := "", status := NO_STATUS, statusPercentage := 50,
    doc := none, outputs := [], reqLineage := "false", lineageInputsXml := [] }

/-- A process with every optional description field populated, for the
document-shape results. -/
def fullProc : Process :=
  { identifier := "p9", title := "T9", abstract := "A", metadata := ["M"],
    profile := ["P"], wsdl := "W", version := "1.0", inputs := [],
    outputs := [], uuid := none, status_location := "", status_url := "",
    store_supported := "false", status_supported := "false" }

/-- A service registering one process that declares a complex input "a"
followed by a literal input "b". -/
def svcComplexFirst : Service :=
  { processes := [("p",
      { sampleProc with inputs := [.complex "a", .literal "b"] })] }

/-- A service registering one process declaring two literal inputs. -/
def svcTwoLiterals : Service :=
  { processes := [("p",
      { sampleProc with inputs := [.literal "a", .literal "b"] })] }

/-- A submitted raw input named "a" with the one-byte inline payload "x". -/
def rawInputA : RawInput :=
  { identifier := "a", data := "x", uom := none, datatype := none,
    mimeType := none, encoding := none, schema := none, method := none,
    href := none }

/-- An Execute request submitting only input "a". -/
def reqOnlyA : WPSRequest := { sampleReq with inputs := some [("a", rawInputA)] }

/-- A POST Execute document holding both a RawDataOutput form and a
ResponseDocument element whose storeExecuteResponse attribute is true. -/
def postDocBoth : ExecutePostDoc :=
  { hasRawDataOutput := true,
    responseDocument := some
      { lineage := none, storeExecuteResponse := some "true", status := none } }

/-- File storage rooted at /out serving /outputs. -/
def sampleStorage : FileStorage :=
  { target := "/out", output_url := "http://h:5000/outputs" }

/-- An output file of 5 bytes on a 4-byte-block filesystem (block-rounded
size 8) with only 7 free units reported. -/
def fsEnvTight : FSEnv :=
  { blkSize := 4, fileSize := 5, freeSpace := 7,
    mkstempName := "/out/f_abc.tif", urljoin := fun b n => b ++ "/" ++ n }

/-- The same snapshot with 8 free units: exactly enough. -/
def fsEnvFits : FSEnv := { fsEnvTight with freeSpace := 8 }

/-- The stored output: a file with an extension already. -/
def sampleOutput : StoreOutput := { file := "/tmp/f.tif", formatExtension := ".tif" }

/-- The response state `_construct_doc` hands back: unchanged except in the
accepted branch, which overwrites the message. -/
theorem construct_doc_self (proc : Process) (cfg : Config) (now : String)
    (self : WPSResponse) :
    (construct_doc proc cfg now self).2.1 =
      if self.status ≥ STORE_AND_UPDATE_STATUS ∧ self.statusPercentage = 0 then
        { self with message := "PyWPS Process " ++ proc.identifier ++ " accepted" }
      else self := by
  unfold construct_doc
  by_cases h1 : self.status ≥ STORE_AND_UPDATE_STATUS
  · by_cases h2 : self.statusPercentage = 0
    · simp [h1, h2]
    · by_cases h3 : 0 < self.statusPercentage ∧ self.statusPercentage < 100
      · simp [h1, h2, h3]
      · by_cases h4 : self.statusPercentage = -1 <;> simp [h1, h2, h3, h4]
  · by_cases h4 : self.statusPercentage = -1 <;> simp [h1, h4]

/-- The effects `_construct_doc` issues are empty whenever the percentage is
nonzero (the accepted branch, the only writing branch, needs percentage 0). -/
theorem construct_doc_effects (proc : Process) (cfg : Config) (now : String)
    (self : WPSResponse) (h : self.statusPercentage ≠ 0) :
    (construct_doc proc cfg now self).2.2 = [] := by
  unfold construct_doc
  by_cases h1 : self.status ≥ STORE_AND_UPDATE_STATUS
  · by_cases h3 : 0 < self.statusPercentage ∧ self.statusPercentage < 100
    · simp [h1, h, h3]
    · by_cases h4 : self.statusPercentage = -1 <;> simp [h1, h, h3, h4]
  · by_cases h4 : self.statusPercentage = -1 <;> simp [h1, h4]

/-- `update_status` never changes the status level. -/
theorem update_status_status (proc : Process) (cfg : Config) (now : String)
    (self : WPSResponse) (message : String) (pct : Option Int) :
    (update_status proc cfg now self message pct).1.status = self.status := by
  unfold update_status
  cases pct with
  | none => by_cases h : self.status ≥ STORE_STATUS <;> simp [h]
  | some p =>
    by_cases hp : p ≠ 0
    · have hsn := construct_doc_self proc cfg now
        { self with message := message, statusPercentage := p }
      by_cases h : self.status ≥ STORE_STATUS <;> simp [hp, h, hsn]
    · by_cases h : self.status ≥ STORE_STATUS <;> simp [hp, h]

/-- `_run_process` never changes the status level of the response it was
given, provided the handler itself preserves it. -/
theorem run_process_status (proc : Process) (cfg : Config) (now : String)
    (handler : Handler) (req : WPSRequest) (resp : WPSResponse)
    (hh : ∀ r, handler req resp = .ok r → r.status = resp.status) :
    (run_process proc cfg now handler req resp).1.status = resp.status := by
  unfold run_process
  cases he : handler req resp with
  | ok r =>
    have hr := hh r he
    by_cases h100 : r.statusPercentage ≠ 100 <;>
      simp [h100, update_status_status, hr]
  | error e => simp [update_status_status]

/-- Full characterization of `update_status` with a truthy percentage: the
message and percentage are recorded, the document is rebuilt, and exactly
when the status level is at least `STORE_STATUS` one write of the rebuilt
document is issued. -/
theorem update_status_set (proc : Process) (cfg : Config) (now : String)
    (self : WPSResponse) (message : String) (p : Int) (hp : p ≠ 0) :
    (update_status proc cfg now self message (some p)).1 =
      ({ self with
          message := message
          statusPercentage := p
          doc := some (construct_doc proc cfg now
            { self with message := message, statusPercentage := p }).1 }) ∧
    (update_status proc cfg now self message (some p)).2 =
      (if self.status ≥ STORE_STATUS then
        [Effect.write proc.status_location
          (some (construct_doc proc cfg now
            { self with message := message, statusPercentage := p }).1)]
      else []) := by
  have hc := construct_doc_self proc cfg now
    { self with message := message, statusPercentage := p }
  rw [if_neg (by simp [hp])] at hc
  have he := construct_doc_effects proc cfg now
    { self with message := message, statusPercentage := p } (by simpa using hp)
  unfold update_status
  by_cases h : self.status ≥ STORE_STATUS <;> simp [hp, hc, he, h]

/-- C3: for an inline complex input (no href), a UTF-8 payload strictly larger
than `max_megabytes * 1024 * 1024` bytes is rejected with `FileSizeExceeded`
naming the input identifier, and a payload at or below that byte limit is
accepted and stored inline. -/
theorem C3_inline_size_limit (env : ParseEnv) (inputs : RawInput)
    (h : inputs.href = none) :
    (inputs.data.utf8ByteSize > env.maxMegabytes * 1024 * 1024 →
      parse_complex_inputs env inputs =
        .error (.FileSizeExceeded
          ("File size for input exceeded. Maximum allowed: " ++
            toString env.maxMegabytes ++ " megabytes") inputs.identifier)) ∧
    (inputs.data.utf8ByteSize ≤ env.maxMegabytes * 1024 * 1024 →
      ∃ v, parse_complex_inputs env inputs = .ok v ∧
        v.data = some inputs.data ∧ v.file = none ∧ v.url = none ∧
        v.asReference = false) := by
  unfold parse_complex_inputs
  rw [h]
  constructor
  · intro hgt
    simp only [if_pos hgt]
  · intro hle
    have hng : ¬ inputs.data.utf8ByteSize > env.maxMegabytes * 1024 * 1024 := by omega
    simp only [if_neg hng]
    exact ⟨_, rfl, rfl, rfl, rfl, rfl⟩

/-- Witness for C3: with a configured maximum of 0 megabytes, the one-byte
payload "x" is rejected with `FileSizeExceeded` naming the identifier, and
the empty payload (exactly at the 0-byte limit) is accepted inline. -/
theorem C3_witness :
    parse_complex_inputs
        ⟨0, "/tmp/t", fun _ => .error "no network"⟩
        ⟨"inp", "x", none, none, none, none, none, none, none⟩ =
      .error (.FileSizeExceeded
        "File size for input exceeded. Maximum allowed: 0 megabytes" "inp") ∧
    ∃ v, parse_complex_inputs
        ⟨0, "/tmp/t", fun _ => .error "no network"⟩
        ⟨"inp2", "", none, none, none, none, none, none, none⟩ =
      .ok v ∧ v.data = some "" := by
  constructor
  · exact (C3_inline_size_limit _ _ rfl).1 (by decide)
  · obtain ⟨v, hv, hd, -⟩ := (C3_inline_size_limit
      ⟨0, "/tmp/t", fun _ => .error "no network"⟩
      ⟨"inp2", "", none, none, none, none, none, none, none⟩ rfl).2 (by decide)
    exact ⟨v, hv, hd⟩

/-- A non-empty traceback always yields a located frame. -/
theorem locateFrame_of_ne_nil (tb : List Frame) (h : tb ≠ []) :
    ∃ f, locateFrame tb = some f := by
  unfold locateFrame
  cases hf : tb.find? (fun f => f.coName == "_handler") with
  | some f => exact ⟨f, rfl⟩
  | none =>
    cases tb with
    | nil => exact absurd rfl h
    | cons a as => exact ⟨a, rfl⟩

/-- C1: an exception raised by the user handler is caught inside
`_run_process` and converted into a terminal failed status: `update_status`
is called with percentage -1 and the message
`Process error: file.function Line n text` built from the located frame's
file basename, function name and line number together with the exception's
text; `_run_process` returns normally (its type is total), so the exception
does not propagate. -/
theorem C1_handler_error_terminal (proc : Process) (cfg : Config)
    (now : String) (handler : Handler) (req : WPSRequest)
    (resp : WPSResponse) (e : PyExc)
    (hh : handler req resp = .error e) (htb : e.tb ≠ []) :
    ∃ f, locateFrame e.tb = some f ∧
      run_process proc cfg now handler req resp =
        update_status proc cfg now resp
          ("Process error: " ++ basename f.coFilename ++ "." ++ f.coName ++
            " Line " ++ toString f.lineno ++ " " ++ e.text) (some (-1)) ∧
      (run_process proc cfg now handler req resp).1.statusPercentage = -1 ∧
      (run_process proc cfg now handler req resp).1.message =
        "Process error: " ++ basename f.coFilename ++ "." ++ f.coName ++
          " Line " ++ toString f.lineno ++ " " ++ e.text := by
  obtain ⟨f, hf⟩ := locateFrame_of_ne_nil e.tb htb
  have h1 : run_process proc cfg now handler req resp =
      update_status proc cfg now resp
        ("Process error: " ++ basename f.coFilename ++ "." ++ f.coName ++
          " Line " ++ toString f.lineno ++ " " ++ e.text) (some (-1)) := by
    unfold run_process
    rw [hh]
    simp [hf]
  have h2 := (update_status_set proc cfg now resp
    ("Process error: " ++ basename f.coFilename ++ "." ++ f.coName ++
      " Line " ++ toString f.lineno ++ " " ++ e.text) (-1) (by decide)).1
  refine ⟨f, hf, h1, ?_, ?_⟩
  · rw [h1, h2]
  · rw [h1, h2]

/-- Witness for C1 at a concrete one-frame handler failure. -/
theorem C1_witness :
    (run_process sampleProc sampleCfg "t" failHandler sampleReq
      (WPSResponse.init sampleProc sampleReq)).1.statusPercentage = -1 ∧
    (run_process sampleProc sampleCfg "t" failHandler sampleReq
      (WPSResponse.init sampleProc sampleReq)).1.message =
      "Process error: proc.py._handler Line 5 boom" := by
  obtain ⟨f, hf, -, hpct, hmsg⟩ := C1_handler_error_terminal sampleProc
    sampleCfg "t" failHandler sampleReq (WPSResponse.init sampleProc sampleReq)
    failExc rfl (by simp [failExc])
  have hfv : (⟨"/srv/app/proc.py", "_handler", 5⟩ : Frame) = f :=
    Option.some.inj hf
  refine ⟨hpct, ?_⟩
  rw [hmsg, ← hfv]
  decide

/-- C2: for a request with storeExecuteResponse=true, a process without
declared storage support fails with `StorageNotSupported`; with storage
support but a status=true request and no declared status support it fails
with `OperationNotSupported`; with both capabilities the returned response
is at level `STORE_AND_UPDATE_STATUS`; and with storage alone the handler is
run inline on a response set to level `STORE_STATUS`. -/
theorem C2_store_status_flags (p : Process) (env : ExecEnv)
    (handler : Handler) (req : WPSRequest)
    (hs : req.store_execute = "true") :
    (p.store_supported ≠ "true" →
      (Process.execute p env handler req).2 =
        .error (.StorageNotSupported
          "Process does not support the storing of the execute response")) ∧
    (p.store_supported = "true" → req.status = "true" →
      p.status_supported ≠ "true" →
      (Process.execute p env handler req).2 =
        .error (.OperationNotSupported
          "Process does not support the updating of status")) ∧
    (p.store_supported = "true" → req.status = "true" →
      p.status_supported = "true" →
      ∃ r effs, (Process.execute p env handler req).2 = .ok (r, effs) ∧
        r.status = STORE_AND_UPDATE_STATUS) ∧
    (p.store_supported = "true" → req.status ≠ "true" →
      ∃ procUpd resp, (Process.execute p env handler req).2 =
          .ok (run_process procUpd env.cfg env.now handler req resp) ∧
        resp.status = STORE_STATUS) := by
  refine ⟨?_, ?_, ?_, ?_⟩
  · intro h1
    unfold Process.execute
    simp [hs, h1]
  · intro h1 h2 h3
    unfold Process.execute
    simp [hs, h1, h2, h3]
  · intro h1 h2 h3
    have hgoal : (Process.execute p env handler req).2 =
        .ok (initAtLevel (uuidAssigned p env.uuid) req STORE_AND_UPDATE_STATUS,
          [Effect.spawnRun]) := by
      unfold Process.execute
      simp [hs, h1, h2, h3, initAtLevel, uuidAssigned, WPSResponse.init]
    exact ⟨_, _, hgoal, rfl⟩
  · intro h1 h2
    have hgoal : (Process.execute p env handler req).2 =
        .ok (run_process (storedProcess (uuidAssigned p env.uuid) env.cfg env.uuid)
          env.cfg env.now handler req
          (initAtLevel (uuidAssigned p env.uuid) req STORE_STATUS)) := by
      unfold Process.execute
      simp [hs, h1, h2, initAtLevel, uuidAssigned, storedProcess,
        WPSResponse.init]
    exact ⟨_, _, hgoal, rfl⟩

/-- Witness for C2: a non-storing process rejects storeExecuteResponse=true,
and a fully capable process yields a level-2 response. -/
theorem C2_witness :
    (Process.execute sampleProc sampleEnv okHandler storeReq).2 =
      .error (.StorageNotSupported
        "Process does not support the storing of the execute response") ∧
    ∃ r effs,
      (Process.execute storingProc sampleEnv okHandler storeStatusReq).2 =
        .ok (r, effs) ∧ r.status = STORE_AND_UPDATE_STATUS := by
  constructor
  · exact (C2_store_status_flags sampleProc sampleEnv okHandler storeReq
      rfl).1 (by decide)
  · exact (C2_store_status_flags storingProc sampleEnv okHandler
      storeStatusReq rfl).2.2.1 rfl rfl rfl

/-- C10: every `Process.execute` call assigns the freshly generated UUID to
the process's uuid field, while `status_location` and `status_url` are left
untouched whenever the request's store_execute flag is not the string true. -/
theorem C10_uuid_and_status_location (p : Process) (env : ExecEnv)
    (handler : Handler) (req : WPSRequest) :
    ((Process.execute p env handler req).1.uuid = some env.uuid) ∧
    (req.store_execute ≠ "true" →
      (Process.execute p env handler req).1.status_location =
        p.status_location ∧
      (Process.execute p env handler req).1.status_url = p.status_url) := by
  constructor
  · unfold Process.execute
    by_cases hs : req.store_execute = "true"
    · by_cases h1 : p.store_supported ≠ "true"
      · simp [hs, h1]
      · by_cases h2 : req.status = "true"
        · by_cases h3 : p.status_supported ≠ "true" <;> simp [hs, h1, h2, h3]
        · simp [hs, h1, h2]
    · simp [hs]
  · intro hs
    unfold Process.execute
    simp [hs]

/-- Witness for C10 on a non-storing request. -/
theorem C10_witness :
    (Process.execute sampleProc sampleEnv okHandler sampleReq).1.uuid =
      some "u" ∧
    (Process.execute sampleProc sampleEnv okHandler
      sampleReq).1.status_location = "" := by
  refine ⟨(C10_uuid_and_status_location sampleProc sampleEnv okHandler
    sampleReq).1, ?_⟩
  exact ((C10_uuid_and_status_location sampleProc sampleEnv okHandler
    sampleReq).2 (by decide)).1

/-- In the declared-input loop, when every input before `d` is present and
parses successfully and `d` itself is missing from the submitted inputs, the
loop fails with `MissingParameterValue` naming `d`. -/
theorem parseDataInputs_first_missing (env : ParseEnv)
    (pre : List DeclaredInput) (d : DeclaredInput)
    (rest : List DeclaredInput) (submitted : List (String × RawInput))
    (hmiss : submitted.lookup d.identifier = none)
    (hpre : ∀ x ∈ pre, ∃ r, submitted.lookup x.identifier = some r ∧
      parseOneOk env x r) :
    parseDataInputs env (pre ++ d :: rest) submitted =
      .error (.MissingParameterValue "" d.identifier) := by
  induction pre with
  | nil =>
    unfold parseDataInputs
    simp [hmiss]
  | cons x xs ih =>
    obtain ⟨r, hr, hok⟩ := hpre x (List.mem_cons_self x xs)
    have ih2 := ih (fun y hy => hpre y (List.mem_cons_of_mem x hy))
    rw [List.cons_append]
    cases x with
    | complex i =>
      obtain ⟨v, hv⟩ := hok
      unfold parseDataInputs
      rw [hr]
      simp [hv, ih2, Except.map]
    | literal i =>
      unfold parseDataInputs
      rw [hr]
      simp [ih2, Except.map]

/-- C4 (amended): `Service.execute` fails with `MissingParameterValue`
locating the first missing declared input — provided every declared input
before it is present and parses without error — and the outcome is the same
for every handler, so the handler is never invoked. -/
theorem C4_first_missing_input (srv : Service) (identifier : String)
    (env : ExecEnv) (req : WPSRequest) (process : Process)
    (submitted : List (String × RawInput)) (pre : List DeclaredInput)
    (d : DeclaredInput) (rest : List DeclaredInput)
    (hp : srv.processes.lookup identifier = some process)
    (hi : req.inputs = some submitted)
    (hd : process.inputs = pre ++ d :: rest)
    (hmiss : submitted.lookup d.identifier = none)
    (hpre : ∀ x ∈ pre, ∃ r, submitted.lookup x.identifier = some r ∧
      parseOneOk env.parse x r) :
    ∀ handler, Service.execute srv identifier env handler req =
      .error (.MissingParameterValue "" d.identifier) := by
  intro handler
  have hparse := parseDataInputs_first_missing env.parse pre d rest submitted
    hmiss hpre
  unfold Service.execute
  rw [hp]
  simp [hi, hd, hparse]

/-- Counterexample for C4 as stated: with a declared complex input "a"
before a declared literal input "b", a request submitting only an oversized
"a" fails with `FileSizeExceeded` — not with `MissingParameterValue` for the
missing "b" — because the loop parses each present input before checking the
next input's presence. -/
theorem C4_counterexample :
    Service.execute svcComplexFirst "p" sampleEnv okHandler reqOnlyA =
      .error (.FileSizeExceeded
        "File size for input exceeded. Maximum allowed: 0 megabytes" "a") ∧
    ∀ m l, Service.execute svcComplexFirst "p" sampleEnv okHandler reqOnlyA ≠
      .error (.MissingParameterValue m l) := by
  have e1 : Service.execute svcComplexFirst "p" sampleEnv okHandler reqOnlyA =
      .error (.FileSizeExceeded
        "File size for input exceeded. Maximum allowed: 0 megabytes" "a") :=
    rfl
  refine ⟨e1, ?_⟩
  intro m l h
  exact WPSError.noConfusion (Except.error.inj (e1.symm.trans h))

/-- Witness for the amended C4: two declared literal inputs, only the first
submitted: the failure names the second. -/
theorem C4_witness :
    Service.execute svcTwoLiterals "p" sampleEnv okHandler reqOnlyA =
      .error (.MissingParameterValue "" "b") := by
  refine C4_first_missing_input svcTwoLiterals "p" sampleEnv reqOnlyA
    ({ sampleProc with inputs := [.literal "a", .literal "b"] })
    [("a", rawInputA)] [.literal "a"] (.literal "b") [] rfl rfl rfl rfl
    ?_ okHandler
  intro x hx
  have hxa : x = .literal "a" := by simpa using hx
  subst hxa
  exact ⟨rawInputA, rfl, trivial⟩

/-- C5: `FileStorage.store` compares the block-rounded file size against the
reported free space; on shortfall it fails with `NotEnoughStorage` naming
the target directory and source file and issues no filesystem effect;
otherwise it creates the generated name, copies, and returns the
`(STORE_TYPE.PATH, name, joined url)` triple. -/
theorem C5_file_storage_store (self : FileStorage) (env : FSEnv)
    (output : StoreOutput) :
    (env.freeSpace <
        ((env.fileSize + env.blkSize - 1) / env.blkSize) * env.blkSize →
      FileStorage.store self env output =
        (.error (.NotEnoughStorage
          ("Not enough space in " ++ self.target ++ " to store " ++
            output.file)), [])) ∧
    (((env.fileSize + env.blkSize - 1) / env.blkSize) * env.blkSize ≤
        env.freeSpace →
      FileStorage.store self env output =
        (.ok (STORE_TYPE_PATH, env.mkstempName,
          env.urljoin self.output_url (basename env.mkstempName)),
         [.mkstempFile env.mkstempName,
          .copy output.file (pathJoin self.target env.mkstempName)])) := by
  constructor
  · intro h
    unfold FileStorage.store
    simp [h]
  · intro h
    unfold FileStorage.store
    simp [Nat.not_lt.mpr h]

/-- Witness for C5: a 5-byte file on 4-byte blocks needs 8 units; 7 free
units refuse with no effect, 8 free units copy and return the triple. -/
theorem C5_witness :
    FileStorage.store sampleStorage fsEnvTight sampleOutput =
      (.error (.NotEnoughStorage "Not enough space in /out to store /tmp/f.tif"),
       []) ∧
    FileStorage.store sampleStorage fsEnvFits sampleOutput =
      (.ok (STORE_TYPE_PATH, "/out/f_abc.tif",
        "http://h:5000/outputs/f_abc.tif"),
       [.mkstempFile "/out/f_abc.tif", .copy "/tmp/f.tif" "/out/f_abc.tif"]) := by
  constructor
  · exact (C5_file_storage_store sampleStorage fsEnvTight sampleOutput).1
      (by decide)
  · have h := (C5_file_storage_store sampleStorage fsEnvFits sampleOutput).2
      (by decide)
    rw [h]
    have hurl : fsEnvFits.urljoin sampleStorage.output_url
        (basename fsEnvFits.mkstempName) = "http://h:5000/outputs/f_abc.tif" := by
      decide
    have hpath : pathJoin sampleStorage.target fsEnvFits.mkstempName =
        "/out/f_abc.tif" := by decide
    rw [hurl, hpath]
    rfl

/-- Counterexample for C6 as stated: a POST Execute document holding both a
RawDataOutput form and a ResponseDocument element with
storeExecuteResponse=true parses with `raw` true but `store_execute` not
equal to the string false — the ResponseDocument attributes override the
forcing. -/
theorem C6_counterexample :
    (parse_execute_post_flags postDocBoth).raw = true ∧
    (parse_execute_post_flags postDocBoth).store_execute ≠ "false" :=
  ⟨rfl, by decide⟩

/-- C6 (amended): `raw` is true exactly when a RawDataOutput element is
present; `store_execute` is forced to the string false by a RawDataOutput
only when no ResponseDocument element is present — when one is present its
storeExecuteResponse attribute (default false) wins. -/
theorem C6_raw_flag (doc : ExecutePostDoc) :
    ((parse_execute_post_flags doc).raw = doc.hasRawDataOutput) ∧
    (doc.responseDocument = none → doc.hasRawDataOutput = true →
      (parse_execute_post_flags doc).store_execute = "false") ∧
    (∀ rd, doc.responseDocument = some rd →
      (parse_execute_post_flags doc).store_execute =
        rd.storeExecuteResponse.getD "false") := by
  obtain ⟨hraw, rdoc⟩ := doc
  cases rdoc <;> cases hraw <;> simp [parse_execute_post_flags]

/-- Witness for C6 at concrete documents: raw alone forces false; a
ResponseDocument with storeExecuteResponse=true overrides. -/
theorem C6_witness :
    (parse_execute_post_flags ⟨true, none⟩).raw = true ∧
    (parse_execute_post_flags ⟨true, none⟩).store_execute = "false" ∧
    (parse_execute_post_flags postDocBoth).store_execute = "true" := by
  refine ⟨?_, ?_, ?_⟩
  · exact (C6_raw_flag ⟨true, none⟩).1
  · exact (C6_raw_flag ⟨true, none⟩).2.1 rfl rfl
  · exact (C6_raw_flag postDocBoth).2.2 ⟨none, some "true", none⟩ rfl

/-- Counterexample for C7 as stated: in the failed-status document the
Exception element carries no attribute named locator; the attribute the
source writes is spelled locater (value None). -/
theorem C7_counterexample :
    xmlPath (construct_doc sampleProc sampleCfg "t" respFail).1 [1, 0, 0, 0] =
      some (.elem "ows:Exception"
        [("exceptionCode", "NoApplicableCode"), ("locater", "None")]
        [.elem "ows:Exception" [] [.text "boom"]]) ∧
    ((xmlPath (construct_doc sampleProc sampleCfg "t" respFail).1
        [1, 0, 0, 0]).map (fun n => n.attrs.lookup "locator")) = some none ∧
    ((xmlPath (construct_doc sampleProc sampleCfg "t" respFail).1
        [1, 0, 0, 0]).map (fun n => n.attrs.lookup "locater")) =
      some (some "None") :=
  ⟨rfl, rfl, rfl⟩

/-- C7 (amended): whenever the status percentage is -1, the built document
contains a ProcessFailed status node wrapping an ExceptionReport/Exception
pair carrying the response's message, the fixed code NoApplicableCode, and
an attribute spelled locater with the literal value None. -/
theorem C7_failed_status_doc (proc : Process) (cfg : Config) (now : String)
    (resp : WPSResponse) (h : resp.statusPercentage = -1) :
    ∃ attrs kids, (construct_doc proc cfg now resp).1 =
        .elem "wps:ExecuteResponse" attrs kids ∧
      (Xml.elem "wps:Status" [("creationTime", now)]
        [.elem "wps:ProcessFailed" []
          [.elem "wps:ExceptionReport" []
            [.elem "ows:Exception"
              [("exceptionCode", "NoApplicableCode"), ("locater", "None")]
              [.elem "ows:Exception" [] [.text resp.message]]]]]) ∈ kids := by
  have h2 : ¬ resp.statusPercentage = 0 := by rw [h]; decide
  have h3 : ¬ (0 < resp.statusPercentage ∧ resp.statusPercentage < 100) := by
    rw [h]; decide
  unfold construct_doc
  by_cases h1 : resp.status ≥ STORE_AND_UPDATE_STATUS
  · simp only [h1, if_true, if_neg h2, if_neg h3, if_pos h]
    refine ⟨_, _, rfl, ?_⟩
    exact List.mem_append_right _ (List.mem_singleton_self _)
  · simp only [h1, if_false, if_pos h]
    refine ⟨_, _, rfl, ?_⟩
    exact List.mem_append_right _ (List.mem_singleton_self _)

/-- Witness for the amended C7 at a concrete failed response. -/
theorem C7_witness :
    ∃ attrs kids, (construct_doc sampleProc sampleCfg "t" respFail).1 =
        .elem "wps:ExecuteResponse" attrs kids ∧
      (Xml.elem "wps:Status" [("creationTime", "t")]
        [.elem "wps:ProcessFailed" []
          [.elem "wps:ExceptionReport" []
            [.elem "ows:Exception"
              [("exceptionCode", "NoApplicableCode"), ("locater", "None")]
              [.elem "ows:Exception" [] [.text "boom"]]]]]) ∈ kids :=
  C7_failed_status_doc sampleProc sampleCfg "t" respFail rfl

/-- Counterexample for C8 as stated: supplying percentage 0 is treated by
the truthiness test as no percentage at all — the field keeps its previous
value 50 and the document is not rebuilt. -/
theorem C8_counterexample :
    (update_status sampleProc sampleCfg "t" respHalf "m"
      (some 0)).1.statusPercentage ≠ 0 ∧
    (update_status sampleProc sampleCfg "t" respHalf "m" (some 0)).1.doc =
      none :=
  ⟨by decide, rfl⟩

/-- C8 (amended): `update_status` always records the message; a supplied
nonzero percentage is recorded and the document rebuilt (a supplied zero is
treated like an absent percentage, Python truthiness); and when the status
level is at least `STORE_STATUS` the document on file is written to the
process's status location as the final effect. -/
theorem C8_update_status (proc : Process) (cfg : Config) (now : String)
    (self : WPSResponse) (message : String) (pct : Option Int) :
    ((update_status proc cfg now self message pct).1.message = message) ∧
    (∀ p, pct = some p → p ≠ 0 →
      (update_status proc cfg now self message pct).1.statusPercentage = p ∧
      (update_status proc cfg now self message pct).1.doc =
        some (construct_doc proc cfg now
          { self with message := message, statusPercentage := p }).1) ∧
    ((pct = none ∨ pct = some 0) →
      (update_status proc cfg now self message pct).1.statusPercentage =
        self.statusPercentage ∧
      (update_status proc cfg now self message pct).1.doc = self.doc) ∧
    (self.status ≥ STORE_STATUS →
      (update_status proc cfg now self message pct).2.getLast? =
        some (.write proc.status_location
          (update_status proc cfg now self message pct).1.doc)) ∧
    (¬ self.status ≥ STORE_STATUS →
      (update_status proc cfg now self message pct).2 = []) := by
  cases pct with
  | none =>
    unfold update_status
    by_cases h : self.status ≥ STORE_STATUS <;> simp [h]
  | some p =>
    by_cases hp : p = 0
    · subst hp
      unfold update_status
      by_cases h : self.status ≥ STORE_STATUS <;> simp [h]
    · have hset := update_status_set proc cfg now self message p hp
      refine ⟨?_, ?_, ?_, ?_, ?_⟩
      · rw [hset.1]
      · intro q hq hqne
        have hpq : p = q := Option.some.inj hq
        subst hpq
        exact ⟨by rw [hset.1], by rw [hset.1]⟩
      · rintro (hc | hc)
        · exact absurd hc (by simp)
        · exact absurd (Option.some.inj hc) hp
      · intro h
        rw [hset.2, if_pos h, hset.1]
        rfl
      · intro h
        rw [hset.2, if_neg h]

/-- Witness for the amended C8 at concrete calls. -/
theorem C8_witness :
    (update_status sampleProc sampleCfg "t" respHalf "m2"
      (some 75)).1.statusPercentage = 75 ∧
    (update_status sampleProc sampleCfg "t" respHalf "m2"
      (some 75)).1.message = "m2" ∧
    (update_status sampleProc sampleCfg "t" respHalf "m2"
      none).1.statusPercentage = 50 := by
  refine ⟨?_, ?_, ?_⟩
  · exact ((C8_update_status sampleProc sampleCfg "t" respHalf "m2"
      (some 75)).2.1 75 rfl (by decide)).1
  · exact (C8_update_status sampleProc sampleCfg "t" respHalf "m2"
      (some 75)).1
  · exact ((C8_update_status sampleProc sampleCfg "t" respHalf "m2"
      none).2.2.1 (Or.inl rfl)).1

/-- C9 (code bug): on a process with abstract A, metadata M, profile P and
WSDL W, the built ExecuteResponse carries those four as direct children of
the document root (children 0-3), while the embedded wps:Process sub-element
(child 4) holds only the identifier and title plus the processVersion
attribute — the claim's placement inside the Process sub-element, matching
the WPS schema and the parallel `capabilities_xml`, is what the source's
`doc.append` calls on lines 495-503 fail to do. -/
theorem C9_misplaced_children :
    (construct_doc fullProc sampleCfg "t" respFail).1.childAt 0 =
      some (.elem "ows:Abstract" [] [.text "A"]) ∧
    (construct_doc fullProc sampleCfg "t" respFail).1.childAt 1 =
      some (.elem "ows:Metadata" [] [.text "M"]) ∧
    (construct_doc fullProc sampleCfg "t" respFail).1.childAt 2 =
      some (.elem "ows:Profile" [] [.text "P"]) ∧
    (construct_doc fullProc sampleCfg "t" respFail).1.childAt 3 =
      some (.elem "ows:WSDL" [] [.text "W"]) ∧
    (construct_doc fullProc sampleCfg "t" respFail).1.childAt 4 =
      some (.elem "wps:Process" [("wps:processVersion", "1.0")]
        [.elem "ows:Identifier" [] [.text "p9"],
         .elem "ows:Title" [] [.text "T9"]]) :=
  ⟨rfl, rfl, rfl, rfl, rfl⟩
